import Mathlib

/-!
Verification of the Coinstore connector market-data pipeline
(`coinstore_api_order_book_data_source.py`, `coinstore_auth.py`,
`coinstore_exchange.py`) against its natural-language specification.

The Python code is shallowly embedded: JSON frames become structures with
optional fields (a missing dictionary key is `none`; reading a missing key
raises, which we model as a failing result), `decimal.Decimal` values become
exact rationals (`ℚ`), `asyncio.Queue.put_nowait` becomes appending to a
list, and the wall clock is an explicit parameter.
-/

set_option autoImplicit false

namespace Coinstore

/-- Embedding of `CONSTANTS.TRADE_EVENT_TYPE` in `coinstore_constants.py`. -/
def TRADE_EVENT_TYPE : String := "trade"

/-- Embedding of `CONSTANTS.DIFF_EVENT_TYPE` in `coinstore_constants.py`. -/
def DIFF_EVENT_TYPE : String := "depth"

/-- One trade entry as carried by the venue: the keys `parse_message` reads
(`tradeId`, `symbol`, `takerSide`, `volume`, `price`, `time`).  `volume` and
`price` are kept as the wire strings; `time` is a millisecond epoch. -/
structure TradeData where
  tradeId : Nat
  symbol : String
  takerSide : String
  volume : String
  price : String
  time : Nat
  deriving Repr, DecidableEq

/-- An inbound websocket frame (a JSON dictionary).  Every field is optional
because a Python dictionary may lack any key; `none` models an absent key. -/
structure Frame where
  T : Option String := none
  tradeId : Option Nat := none
  data : Option (List TradeData) := none
  symbol : Option String := none
  takerSide : Option String := none
  volume : Option String := none
  price : Option String := none
  time : Option Nat := none
  b : Option (List (List ℚ)) := none
  a : Option (List (List ℚ)) := none
  deriving Repr, DecidableEq

/-- Embedding of `_channel_originating_message` in
`coinstore_api_order_book_data_source.py` (lines 142-148): two sequential
`if` statements over the frame's `T` tag and `tradeId` key; the second `if`
is not an `elif`, so it can overwrite the first assignment. -/
def channel_originating_message (event_message : Frame) : String :=
  let channel := ""
  let channel :=
    if event_message.T = some TRADE_EVENT_TYPE ∨ event_message.tradeId ≠ none then
      TRADE_EVENT_TYPE
    else channel
  let channel :=
    if event_message.T = some DIFF_EVENT_TYPE then DIFF_EVENT_TYPE else channel
  channel

/-- The keepalive reply payload `{"op": "pong", "epochMillis": ...}`. -/
structure PongPayload where
  op : String
  epochMillis : ℚ
  deriving Repr, DecidableEq

/-- Embedding of `_process_message_for_unknown_channel` (lines 150-156): builds one pong
payload stamped with the local time in milliseconds (`self._time() * 1e3`)
and sends it once.  The returned list is the sequence of frames sent. -/
def process_message_for_unknown_channel (now : ℚ) : List PongPayload :=
  [{ op := "pong", epochMillis := now * 1000 }]

/-- Modelled from the spec: the stream reader loop that drives the Router
lives in the core `OrderBookTrackerDataSource` base class, which is not under
`src/`.  Per the spec it classifies each frame and, when the frame matches
neither the trade nor the diff classification, forwards it to the keepalive
responder; otherwise no keepalive is sent.  Returns the keepalive frames
sent for one inbound frame. -/
def route_frame (event_message : Frame) (now : ℚ) : List PongPayload :=
  let channel := channel_originating_message event_message
  if channel = TRADE_EVENT_TYPE ∨ channel = DIFF_EVENT_TYPE then []
  else process_message_for_unknown_channel now

/-- The channel name `f"{channel_id}@{CONSTANTS.DIFF_EVENT_TYPE}@50"` built in
`_subscribe_channels` (line 65). -/
def depth_channel_name (channel_id : Nat) : String :=
  toString channel_id ++ "@" ++ DIFF_EVENT_TYPE ++ "@50"

/-- The channel name `f"{channel_id}@{CONSTANTS.TRADE_EVENT_TYPE}"` built in
`_subscribe_channels` (line 66). -/
def trade_channel_name (channel_id : Nat) : String :=
  toString channel_id ++ "@" ++ TRADE_EVENT_TYPE

/-- The subscribe control frame payload `{"op": "SUB", "channel": ..., "id": 1}`. -/
structure SubPayload where
  op : String
  channel : List String
  id : Nat
  deriving Repr, DecidableEq

/-- The loop body of `_subscribe_channels` (lines 62-66): for each trading
pair, resolve the venue symbol (`exchange_symbol_associated_to_pair`, a
lookup that raises on an unknown pair, modelled by `symbol_map`), look up the
numeric channel id in `self._connector._symbol_to_id_map` (a dictionary
access that raises `KeyError` on a miss, modelled by `id_map`), and append
the depth channel name and then the trade channel name.  `none` models the
raised exception aborting the loop. -/
def build_channels (symbol_map : String → Option String) (id_map : String → Option Nat) :
    List String → Option (List String)
  | [] => some []
  | trading_pair :: rest =>
    match symbol_map trading_pair with
    | none => none
    | some trading_symbol =>
      match id_map trading_symbol with
      | none => none
      | some channel_id =>
        (build_channels symbol_map id_map rest).map
          (fun cs => depth_channel_name channel_id :: trade_channel_name channel_id :: cs)

/-- Embedding of `_subscribe_channels` (lines 56-81): builds the channel list and sends
exactly one subscribe control frame; when any resolution raises, the
exception propagates before `ws.send`, so nothing is sent.  The returned
list is the sequence of frames sent. -/
def subscribe_channels (symbol_map : String → Option String) (id_map : String → Option Nat)
    (trading_pairs : List String) : List SubPayload :=
  match build_channels symbol_map id_map trading_pairs with
  | none => []
  | some channels => [{ op := "SUB", channel := channels, id := 1 }]

/-- Per-instrument pair of channel names, used to state what
`subscribe_channels` builds. -/
def pair_channel_names (symbol_map : String → Option String) (id_map : String → Option Nat)
    (trading_pair : String) : List String :=
  match symbol_map trading_pair with
  | none => []
  | some trading_symbol =>
    match id_map trading_symbol with
    | none => []
    | some channel_id => [depth_channel_name channel_id, trade_channel_name channel_id]

/-- A decimal digit character. -/
def isDigitChar (c : Char) : Bool := '0' ≤ c && c ≤ '9'

/-- Value of a decimal digit string, most significant digit first. -/
def digitsToNat (ds : List Char) : Nat :=
  ds.foldl (fun acc c => 10 * acc + (c.toNat - 48)) 0

/-- The exponent part of a `decimal.Decimal` literal (after `e`/`E`):
an optional sign followed by at least one digit, nothing else. -/
def parseExponent (cs : List Char) : Option ℤ :=
  let core : List Char → Option ℕ := fun l =>
    let ds := l.takeWhile isDigitChar
    let rest := l.dropWhile isDigitChar
    if ds ≠ [] ∧ rest = [] then some (digitsToNat ds) else none
  match cs with
  | '+' :: r => (core r).map (fun n => (n : ℤ))
  | '-' :: r => (core r).map (fun n => -(n : ℤ))
  | r => (core r).map (fun n => (n : ℤ))

/-- The exact rational value of a finite decimal literal with integer digits
`ip`, fraction digits `fp` and decimal exponent `e`. -/
def decimalValue (ip fp : List Char) (e : ℤ) : ℚ :=
  ((digitsToNat ip * 10 ^ fp.length + digitsToNat fp : ℚ) / 10 ^ fp.length) * (10 : ℚ) ^ e

/-- The unsigned part of `decimal.Decimal`'s numeric literal grammar:
`digits [. digits] [(e|E) exponent]`, with at least one digit present. -/
def parseUnsignedDecimal (cs : List Char) : Option ℚ :=
  let ip := cs.takeWhile isDigitChar
  let r1 := cs.dropWhile isDigitChar
  let fr : List Char × List Char :=
    match r1 with
    | '.' :: r => (r.takeWhile isDigitChar, r.dropWhile isDigitChar)
    | _ => ([], r1)
  let fp := fr.1
  if ip = [] ∧ fp = [] then none
  else
    match fr.2 with
    | [] => some (decimalValue ip fp 0)
    | c :: r =>
      if c = 'e' ∨ c = 'E' then (parseExponent r).map (fun e => decimalValue ip fp e)
      else none

/-- Embedding of `decimal.Decimal(s)` on a finite numeric string: exact decimal parsing
(no binary floating point is involved), `none` when the literal is invalid
(the constructor raises `InvalidOperation`). -/
def pyDecimal (s : String) : Option ℚ :=
  match s.toList with
  | '-' :: r => (parseUnsignedDecimal r).map (fun q => -q)
  | '+' :: r => parseUnsignedDecimal r
  | r => parseUnsignedDecimal r

/-- Modelled from the spec: the canonical buy/sell enumeration (`TradeType`
in the core data types, not under `src/`); `BUY.value = 1`, `SELL.value = 2`. -/
inductive TradeType where
  | BUY
  | SELL
  deriving Repr, DecidableEq

/-- Numeric value of the enumeration member. -/
def TradeType.value : TradeType → Nat
  | .BUY => 1
  | .SELL => 2

/-- The content dictionary built for one trade record by `parse_message`
(lines 106-112). -/
structure TradeContent where
  trade_id : Nat
  trading_pair : String
  trade_type : ℚ
  amount : ℚ
  price : ℚ
  deriving Repr, DecidableEq

/-- An `OrderBookMessage` of type TRADE (lines 114-116). -/
structure TradeMessage where
  content : TradeContent
  timestamp : ℚ
  deriving Repr, DecidableEq

/-- The inner `parse_message` coroutine of `_parse_trade_message`
(lines 105-117) up to the enqueue: resolves the trading pair
(`trading_pair_associated_to_exchange_symbol`, modelled by `resolve`, raising
on an unknown symbol), maps `takerSide` to
`float(TradeType.BUY.value)`/`float(TradeType.SELL.value)`, parses `volume`
and `price` with `Decimal`, and stamps the record with `msg["time"] / 1000`.
`none` models any exception raised while building the record. -/
def parse_message (resolve : String → Option String) (msg : TradeData) :
    Option TradeMessage :=
  match resolve msg.symbol, pyDecimal msg.volume, pyDecimal msg.price with
  | some trading_pair, some volume, some price =>
    some { content :=
            { trade_id := msg.tradeId
              trading_pair := trading_pair
              trade_type :=
                if msg.takerSide = "BUY" then (TradeType.BUY.value : ℚ)
                else (TradeType.SELL.value : ℚ)
              amount := volume
              price := price }
           timestamp := (msg.time : ℚ) / 1000 }
  | _, _, _ => none

/-- The `for trade_data in raw_message["data"]` loop of `_parse_trade_message`
(lines 119-120): each successfully parsed entry is enqueued
(`put_nowait`, modelled by appending) in arrival order; the first failing
entry raises, leaving the earlier records enqueued (`false` result). -/
def parse_trade_list (resolve : String → Option String) :
    List TradeData → List TradeMessage → List TradeMessage × Bool
  | [], queue => (queue, true)
  | trade_data :: rest, queue =>
    match parse_message resolve trade_data with
    | some m => parse_trade_list resolve rest (queue ++ [m])
    | none => (queue, false)

/-- The keyword arguments `parse_message(**raw_message)` needs from the frame
itself (line 124): all six trade keys must be present, else `KeyError`. -/
def Frame.asTradeData (f : Frame) : Option TradeData :=
  match f.tradeId, f.symbol, f.takerSide, f.volume, f.price, f.time with
  | some i, some s, some ts, some v, some p, some t =>
    some { tradeId := i, symbol := s, takerSide := ts, volume := v, price := p, time := t }
  | _, _, _, _, _, _ => none

/-- Embedding of `_parse_trade_message` (lines 104-124): iterates `raw_message["data"]`
(a missing `data` key raises `KeyError` before anything is enqueued), then,
when `raw_message.get("tradeId", None) is not None`, parses the frame itself
as one additional incremental record.  Result: the queue after the call and
whether it completed without raising. -/
def parse_trade_message (resolve : String → Option String) (raw_message : Frame)
    (message_queue : List TradeMessage) : List TradeMessage × Bool :=
  match raw_message.data with
  | none => (message_queue, false)
  | some entries =>
    match parse_trade_list resolve entries message_queue with
    | (q1, false) => (q1, false)
    | (q1, true) =>
      match raw_message.tradeId with
      | none => (q1, true)
      | some _ =>
        match raw_message.asTradeData with
        | none => (q1, false)
        | some msg =>
          match parse_message resolve msg with
          | some m => (q1 ++ [m], true)
          | none => (q1, false)

/-- The content dictionary of a DIFF or SNAPSHOT `OrderBookMessage`
(lines 92-97 and 132-137): trading pair, `update_id`, and the venue's bid and
ask arrays passed through verbatim. -/
structure BookContent where
  trading_pair : String
  update_id : ℚ
  bids : List (List ℚ)
  asks : List (List ℚ)
  deriving Repr, DecidableEq

/-- An `OrderBookMessage` of type DIFF or SNAPSHOT. -/
structure BookMessage where
  content : BookContent
  timestamp : ℚ
  deriving Repr, DecidableEq

/-- Embedding of `_parse_order_book_diff_message` (lines 126-140): stamps the local time,
resolves the instrument from `raw_message["symbol"]` (any missing key or an
unresolvable symbol raises before `put_nowait`, leaving the queue untouched),
copies `b`/`a` verbatim, and enqueues exactly one DIFF message.  Result: the
queue after the call and whether it completed without raising. -/
def parse_order_book_diff_message (resolve : String → Option String) (raw_message : Frame)
    (now : ℚ) (message_queue : List BookMessage) : List BookMessage × Bool :=
  match raw_message.symbol with
  | none => (message_queue, false)
  | some symbol =>
    match resolve symbol with
    | none => (message_queue, false)
    | some trading_pair =>
      match raw_message.b, raw_message.a with
      | some bids, some asks =>
        (message_queue ++
          [{ content :=
              { trading_pair := trading_pair, update_id := now, bids := bids, asks := asks }
             timestamp := now }], true)
      | _, _ => (message_queue, false)

/-- The `data` object of a REST depth response: the `b` and `a` arrays. -/
structure SnapshotData where
  b : List (List ℚ)
  a : List (List ℚ)
  deriving Repr, DecidableEq

/-- A REST depth response `{"data": {"b": ..., "a": ...}}`. -/
structure SnapshotResponse where
  data : SnapshotData
  deriving Repr, DecidableEq

/-- Embedding of `_order_book_snapshot` (lines 88-102) after the REST call returned
`snapshot_response`: stamps `snapshot_timestamp = self._time()`, builds the
content from `data.b`/`data.a`, and returns one SNAPSHOT message whose
timestamp is the same stamp. -/
def order_book_snapshot (snapshot_response : SnapshotResponse) (trading_pair : String)
    (now : ℚ) : BookMessage :=
  { content :=
      { trading_pair := trading_pair
        update_id := now
        bids := snapshot_response.data.b
        asks := snapshot_response.data.a }
    timestamp := now }

/-- One entry of the exchange-info `data` array, with the keys
`_initialize_trading_pair_symbols_from_exchange_info` reads: the venue
symbol string and the numeric channel id. -/
structure SymbolData where
  symbol : String
  id : Nat
  deriving Repr, DecidableEq

/-- An exchange-info response: optional `code`, optional `message`, `data`. -/
structure ExchangeInfo where
  code : Option Int := none
  message : Option String := none
  data : List SymbolData := []
  deriving Repr, DecidableEq

/-- The registry state owned by `CoinstoreExchange`: the bidirectional
symbol/trading-pair map (`none` until `_set_trading_pair_symbol_map` runs)
and the mutable `_symbol_to_id_map` dictionary, both as insertion-ordered
association lists. -/
structure RegistryState where
  trading_pair_symbol_map : Option (List (String × String))
  symbol_to_id_map : List (String × Nat)
  deriving Repr, DecidableEq

/-- Python mapping assignment `m[k] = v` on an insertion-ordered mapping
(`dict`, `OrderedDict` or `bidict` keyed by strings): replace in place when
the key exists (keeping its position), else append at the end. -/
def pySetItem {β : Type} (m : List (String × β)) (k : String) (v : β) : List (String × β) :=
  if m.any (fun kv => kv.1 = k) then
    m.map (fun kv => if kv.1 = k then (k, v) else kv)
  else m ++ [(k, v)]

/-- Modelled from the spec: `combine_to_hb_trading_pair` from the core
connector utils (not under `src/`) joins base and quote with a dash into the
human-facing trading pair. -/
def combine_to_hb_trading_pair (base quote : String) : String :=
  base ++ "-" ++ quote

/-- Embedding of `exchange_symbol.split("USDT")[0]` followed by `.upper()`: the text
before the first occurrence of `"USDT"`, uppercased. -/
def base_asset_of (exchange_symbol : String) : String :=
  ((exchange_symbol.splitOn "USDT").headD "").toUpper

/-- The loop body of `_initialize_trading_pair_symbols_from_exchange_info`
(lines 145-150): only symbols ending in `"USDT"` are installed, into both
the fresh `mapping` and the mutated `_symbol_to_id_map`. -/
def install_symbol (acc : List (String × String) × List (String × Nat))
    (symbol_data : SymbolData) : List (String × String) × List (String × Nat) :=
  if symbol_data.symbol.endsWith "USDT" then
    (pySetItem acc.1 symbol_data.symbol
      (combine_to_hb_trading_pair (base_asset_of symbol_data.symbol) "USDT"),
     pySetItem acc.2 symbol_data.symbol symbol_data.id)
  else acc

/-- Embedding of `_initialize_trading_pair_symbols_from_exchange_info` in
`coinstore_exchange.py` (lines 133-151): when `exchange_info.get("code")` is
anything but `0` the method only logs and returns (the registry state is
untouched); otherwise it folds the `data` array through `install_symbol` and
installs the new mapping with `_set_trading_pair_symbol_map`. -/
def initialize_trading_pair_symbols_from_exchange_info (exchange_info : ExchangeInfo)
    (st : RegistryState) : RegistryState :=
  if exchange_info.code ≠ some 0 then st
  else
    let acc := exchange_info.data.foldl install_symbol ([], st.symbol_to_id_map)
    { trading_pair_symbol_map := some acc.1, symbol_to_id_map := acc.2 }

/-! ### The request signer (`coinstore_auth.py`)

`_generate_signature` calls `urllib.parse.urlencode`, `hmac.new` and
`hashlib.sha256` from the Python standard library; these are embedded
below at byte level (bytes are `Nat`s below 256, 32-bit words are `Nat`s
reduced modulo `2 ^ 32`). -/

/-- UTF-8 encoding of one character (`str.encode("utf8")`). -/
def charUtf8 (c : Char) : List Nat :=
  let n := c.toNat
  if n < 0x80 then [n]
  else if n < 0x800 then
    [0xC0 ||| (n >>> 6), 0x80 ||| (n &&& 0x3F)]
  else if n < 0x10000 then
    [0xE0 ||| (n >>> 12), 0x80 ||| ((n >>> 6) &&& 0x3F), 0x80 ||| (n &&& 0x3F)]
  else
    [0xF0 ||| (n >>> 18), 0x80 ||| ((n >>> 12) &&& 0x3F),
     0x80 ||| ((n >>> 6) &&& 0x3F), 0x80 ||| (n &&& 0x3F)]

/-- UTF-8 encoding of a string as a byte list. -/
def utf8Bytes (s : String) : List Nat :=
  s.toList.flatMap charUtf8

/-- Right rotation of a 32-bit word (input expected below `2 ^ 32`). -/
def rotr32 (n x : Nat) : Nat :=
  ((x >>> n) ||| (x <<< (32 - n))) % 4294967296

/-- SHA-256 small sigma 0. -/
def ssig0 (x : Nat) : Nat := rotr32 7 x ^^^ rotr32 18 x ^^^ (x >>> 3)

/-- SHA-256 small sigma 1. -/
def ssig1 (x : Nat) : Nat := rotr32 17 x ^^^ rotr32 19 x ^^^ (x >>> 10)

/-- SHA-256 big sigma 0. -/
def bsig0 (x : Nat) : Nat := rotr32 2 x ^^^ rotr32 13 x ^^^ rotr32 22 x

/-- SHA-256 big sigma 1. -/
def bsig1 (x : Nat) : Nat := rotr32 6 x ^^^ rotr32 11 x ^^^ rotr32 25 x

/-- SHA-256 choice function (`¬x` is the 32-bit complement). -/
def sha2ch (x y z : Nat) : Nat := (x &&& y) ^^^ ((x ^^^ 0xFFFFFFFF) &&& z)

/-- SHA-256 majority function. -/
def sha2maj (x y z : Nat) : Nat := (x &&& y) ^^^ (x &&& z) ^^^ (y &&& z)

/-- The SHA-256 round constants (FIPS 180-4), written in decimal. -/
def sha256K : List Nat :=
  [1116352408, 1899447441, 3049323471, 3921009573, 961987163, 1508970993,
   2453635748, 2870763221, 3624381080, 310598401, 607225278, 1426881987,
   1925078388, 2162078206, 2614888103, 3248222580, 3835390401, 4022224774,
   264347078, 604807628, 770255983, 1249150122, 1555081692, 1996064986,
   2554220882, 2821834349, 2952996808, 3210313671, 3336571891, 3584528711,
   113926993, 338241895, 666307205, 773529912, 1294757372, 1396182291,
   1695183700, 1986661051, 2177026350, 2456956037, 2730485921, 2820302411,
   3259730800, 3345764771, 3516065817, 3600352804, 4094571909, 275423344,
   430227734, 506948616, 659060556, 883997877, 958139571, 1322822218,
   1537002063, 1747873779, 1955562222, 2024104815, 2227730452, 2361852424,
   2428436474, 2756734187, 3204031479, 3329325298]

/-- The SHA-256 initial hash value (FIPS 180-4), written in decimal. -/
def sha256H0 : List Nat :=
  [1779033703, 3144134277, 1013904242, 2773480762, 1359893119, 2600822924,
   528734635, 1541459225]

/-- Big-endian 64-bit byte encoding of a number. -/
def be64 (n : Nat) : List Nat :=
  [(n >>> 56) % 256, (n >>> 48) % 256, (n >>> 40) % 256, (n >>> 32) % 256,
   (n >>> 24) % 256, (n >>> 16) % 256, (n >>> 8) % 256, n % 256]

/-- SHA-256 padding: append `0x80`, zeros up to 56 mod 64 bytes, then the
big-endian 64-bit bit length. -/
def sha256Pad (msg : List Nat) : List Nat :=
  let padZeros := (119 - msg.length % 64) % 64
  msg ++ [0x80] ++ List.replicate padZeros 0 ++ be64 (8 * msg.length)

/-- Big-endian grouping of bytes into 32-bit words. -/
def bytesToWords : List Nat → List Nat
  | b0 :: b1 :: b2 :: b3 :: rest =>
    (((b0 * 256 + b1) * 256 + b2) * 256 + b3) :: bytesToWords rest
  | _ => []

/-- Big-endian splitting of 32-bit words into bytes. -/
def wordsToBytes : List Nat → List Nat
  | [] => []
  | w :: rest =>
    (w >>> 24) % 256 :: (w >>> 16) % 256 :: (w >>> 8) % 256 :: w % 256 :: wordsToBytes rest

/-- The SHA-256 message schedule: the first 16 words of a block extended to
64 words. -/
def sha256Schedule (ws : List Nat) : Array Nat :=
  (List.range 48).foldl
    (fun arr _ =>
      let i := arr.size
      arr.push ((arr.getD (i - 16) 0 + ssig0 (arr.getD (i - 15) 0) +
                 arr.getD (i - 7) 0 + ssig1 (arr.getD (i - 2) 0)) % 4294967296))
    (Array.mk ws)

/-- One SHA-256 compression of a 64-byte block into the running hash. -/
def sha256Compress (h : List Nat) (block : List Nat) : List Nat :=
  let ws := sha256Schedule (bytesToWords block)
  let st0 := (h.getD 0 0, h.getD 1 0, h.getD 2 0, h.getD 3 0,
              h.getD 4 0, h.getD 5 0, h.getD 6 0, h.getD 7 0)
  let stN := (List.range 64).foldl
    (fun st i =>
      let (a, b, c, d, e, f, g, hh) := st
      let t1 := (hh + bsig1 e + sha2ch e f g + sha256K.getD i 0 + ws.getD i 0) % 4294967296
      let t2 := (bsig0 a + sha2maj a b c) % 4294967296
      ((t1 + t2) % 4294967296, a, b, c, (d + t1) % 4294967296, e, f, g))
    st0
  match stN with
  | (a, b, c, d, e, f, g, hh) =>
    [(h.getD 0 0 + a) % 4294967296, (h.getD 1 0 + b) % 4294967296,
     (h.getD 2 0 + c) % 4294967296, (h.getD 3 0 + d) % 4294967296,
     (h.getD 4 0 + e) % 4294967296, (h.getD 5 0 + f) % 4294967296,
     (h.getD 6 0 + g) % 4294967296, (h.getD 7 0 + hh) % 4294967296]

/-- Fold the padded message block by block through the compression. -/
def sha256Blocks : Nat → List Nat → List Nat → List Nat
  | 0, h, _ => h
  | n + 1, h, bytes => sha256Blocks n (sha256Compress h (bytes.take 64)) (bytes.drop 64)

/-- Embedding of `hashlib.sha256(msg).digest()`: the 32-byte SHA-256 digest. -/
def sha256 (msg : List Nat) : List Nat :=
  let padded := sha256Pad msg
  wordsToBytes (sha256Blocks (padded.length / 64) sha256H0 padded)

/-- Embedding of `hmac.new(key, msg, hashlib.sha256).digest()`: HMAC-SHA256 with 64-byte
block size. -/
def hmacSha256 (key msg : List Nat) : List Nat :=
  let k0 := if 64 < key.length then sha256 key else key
  let kpad := k0 ++ List.replicate (64 - k0.length) 0
  let ipad := kpad.map (fun b => b ^^^ 0x36)
  let opad := kpad.map (fun b => b ^^^ 0x5C)
  sha256 (opad ++ sha256 (ipad ++ msg))

/-- Lowercase hexadecimal digit characters. -/
def hexDigitChar (n : Nat) : Char :=
  "0123456789abcdef".toList.getD n '0'

/-- Embedding of `.hexdigest()`: the digest rendered as lowercase hexadecimal, two
characters per byte. -/
def bytesToHex (bs : List Nat) : String :=
  String.mk (bs.flatMap (fun b => [hexDigitChar (b / 16), hexDigitChar (b % 16)]))

/-- Embedding of `urllib.parse.quote_plus` never escapes ASCII letters, digits, `_`,
`.`, `-` and `~`. -/
def quoteSafeByte (b : Nat) : Bool :=
  (65 ≤ b && b ≤ 90) || (97 ≤ b && b ≤ 122) || (48 ≤ b && b ≤ 57) ||
  b == 95 || b == 46 || b == 45 || b == 126

/-- Uppercase hexadecimal digit characters (percent escapes use them). -/
def hexDigitCharUpper (n : Nat) : Char :=
  "0123456789ABCDEF".toList.getD n '0'

/-- Embedding of `quote_plus` over UTF-8 bytes: safe bytes pass through, a space becomes
`+`, every other byte becomes `%XX`. -/
def quotePlusBytes : List Nat → List Char
  | [] => []
  | b :: rest =>
    (if quoteSafeByte b then [Char.ofNat b]
     else if b == 32 then ['+']
     else ['%', hexDigitCharUpper (b / 16), hexDigitCharUpper (b % 16)]) ++ quotePlusBytes rest

/-- Embedding of `urllib.parse.quote_plus` on a string. -/
def quote_plus (s : String) : String :=
  String.mk (quotePlusBytes (utf8Bytes s))

/-- Embedding of `urllib.parse.urlencode` on an insertion-ordered mapping: each pair
rendered `key=value` with `quote_plus`, joined by `&`. -/
def urlencode (params : List (String × String)) : String :=
  String.intercalate "&" (params.map (fun kv => quote_plus kv.1 ++ "=" ++ quote_plus kv.2))

/-- Embedding of `CoinstoreAuth._generate_signature` (`coinstore_auth.py` lines 63-71):
HMAC-SHA256 of the URL-encoded parameters keyed by the UTF-8 secret,
rendered as a lowercase hex digest. -/
def generate_signature (secret_key : String) (params : List (String × String)) : String :=
  bytesToHex (hmacSha256 (utf8Bytes secret_key) (utf8Bytes (urlencode params)))

/-- Embedding of `CoinstoreAuth.add_auth_to_params` (lines 48-57) with the time provider's
millisecond timestamp made explicit: copy the parameters into an
`OrderedDict`, set `timestamp`, sign, then set `signature`. -/
def add_auth_to_params (secret_key : String) (timestamp_ms : Nat)
    (params : List (String × String)) : List (String × String) :=
  let request_params := pySetItem params "timestamp" (toString timestamp_ms)
  let signature := generate_signature secret_key request_params
  pySetItem request_params "signature" signature

/-! ### Theorems -/

/-- C1 counterexample: the claim says a frame carrying both a trade-id field
and the diff-type tag is classified as Trade, never as Diff; on the code the
diff check is a second independent `if` that overwrites the trade
classification, so such a frame is classified as Diff. -/
theorem c1_trade_priority_counterexample :
    channel_originating_message { T := some "depth", tradeId := some 1 } = "depth" ∧
    channel_originating_message { T := some "depth", tradeId := some 1 } ≠ "trade" := by
  constructor
  · rfl
  · decide

/-- C1 (amended): the router classifies with the diff-type tag taking
priority: a frame carrying the diff-type tag is classified as Diff (even if
it also carries a trade-id field or the trade-type tag); otherwise a frame
carrying the trade-type tag or a trade-id field is classified as Trade;
otherwise it is classified as Unknown (the empty channel). -/
theorem c1_classification_diff_priority (f : Frame) :
    (f.T = some DIFF_EVENT_TYPE → channel_originating_message f = DIFF_EVENT_TYPE) ∧
    (f.T ≠ some DIFF_EVENT_TYPE → (f.T = some TRADE_EVENT_TYPE ∨ f.tradeId ≠ none) →
      channel_originating_message f = TRADE_EVENT_TYPE) ∧
    (f.T ≠ some DIFF_EVENT_TYPE → f.T ≠ some TRADE_EVENT_TYPE → f.tradeId = none →
      channel_originating_message f = "") := by
  refine ⟨fun h => ?_, fun h1 h2 => ?_, fun h1 h2 h3 => ?_⟩
  · simp [channel_originating_message, h]
  · simp [channel_originating_message, h1, h2]
  · simp [channel_originating_message, h1, h2, h3]

/-- Witness for `c1_classification_diff_priority` on concrete frames. -/
theorem c1_classification_diff_priority_witness :
    channel_originating_message { T := some "depth", tradeId := some 1 } = "depth" ∧
    channel_originating_message { tradeId := some 7 } = "trade" ∧
    channel_originating_message { T := some "ping" } = "" := by
  refine ⟨?_, ?_, ?_⟩
  · exact (c1_classification_diff_priority _).1 rfl
  · exact (c1_classification_diff_priority _).2.1 (by decide) (Or.inr (by decide))
  · exact (c1_classification_diff_priority _).2.2 (by decide) (by decide) rfl

/-- C3: for every frame that matches neither the trade nor the diff
classification, the unknown-channel handler sends exactly one keepalive
reply frame whose payload has `op == "pong"` and `epochMillis` equal to the
local time converted to milliseconds. -/
theorem c3_unknown_channel_sends_one_pong (f : Frame) (now : ℚ)
    (h1 : channel_originating_message f ≠ TRADE_EVENT_TYPE)
    (h2 : channel_originating_message f ≠ DIFF_EVENT_TYPE) :
    route_frame f now = [{ op := "pong", epochMillis := now * 1000 }] := by
  simp [route_frame, process_message_for_unknown_channel, h1, h2]

/-- Witness for `c3_unknown_channel_sends_one_pong` on a concrete frame. -/
theorem c3_unknown_channel_sends_one_pong_witness :
    route_frame { T := some "ping" } 2 = [{ op := "pong", epochMillis := 2 * 1000 }] :=
  c3_unknown_channel_sends_one_pong { T := some "ping" } 2 (by decide) (by decide)

/-- C6: a REST depth response `{"data":{"b":[[100,0.1]],"a":[[101,0.1]]}}`
normalizes to a snapshot message with exactly that one bid level and that
one ask level, the requested instrument, and update marker equal to the
local receipt time, which also equals the message's timestamp. -/
theorem c6_snapshot_round_trip (trading_pair : String) (now : ℚ) :
    (order_book_snapshot { data := { b := [[100, 1/10]], a := [[101, 1/10]] } }
        trading_pair now).content.bids = [[100, 1/10]] ∧
    (order_book_snapshot { data := { b := [[100, 1/10]], a := [[101, 1/10]] } }
        trading_pair now).content.asks = [[101, 1/10]] ∧
    (order_book_snapshot { data := { b := [[100, 1/10]], a := [[101, 1/10]] } }
        trading_pair now).content.trading_pair = trading_pair ∧
    (order_book_snapshot { data := { b := [[100, 1/10]], a := [[101, 1/10]] } }
        trading_pair now).content.update_id = now ∧
    (order_book_snapshot { data := { b := [[100, 1/10]], a := [[101, 1/10]] } }
        trading_pair now).timestamp = now :=
  ⟨rfl, rfl, rfl, rfl, rfl⟩

/-- When every trading pair resolves to a symbol with a channel id, the
channel list is the per-instrument pairs of names, concatenated in order. -/
theorem build_channels_eq_flatMap (symbol_map : String → Option String)
    (id_map : String → Option Nat) (pairs : List String)
    (h : ∀ tp ∈ pairs, ∃ s cid, symbol_map tp = some s ∧ id_map s = some cid) :
    build_channels symbol_map id_map pairs =
      some (pairs.flatMap (pair_channel_names symbol_map id_map)) := by
  induction pairs with
  | nil => rfl
  | cons tp rest ih =>
    obtain ⟨s, cid, hs, hcid⟩ := h tp (List.mem_cons_self tp rest)
    have ih' := ih (fun x hx => h x (List.mem_cons_of_mem _ hx))
    simp [build_channels, pair_channel_names, hs, hcid, ih']

/-- Each resolvable instrument contributes exactly two channel names. -/
theorem pair_channel_names_length (symbol_map : String → Option String)
    (id_map : String → Option Nat) (tp : String)
    (h : ∃ s cid, symbol_map tp = some s ∧ id_map s = some cid) :
    (pair_channel_names symbol_map id_map tp).length = 2 := by
  obtain ⟨s, cid, hs, hcid⟩ := h
  simp [pair_channel_names, hs, hcid]

/-- C2: for every non-empty list of instruments each having a registry
entry, `_subscribe_channels` sends exactly one control frame whose payload
has `op == "SUB"`, request id `1`, and a channel array of length
`2 × |instruments|` consisting, per instrument and in order, of the names
`{channelId}@depth@50` and `{channelId}@trade`. -/
theorem c2_subscribe_single_frame (symbol_map : String → Option String)
    (id_map : String → Option Nat) (pairs : List String)
    (hne : pairs ≠ [])
    (h : ∀ tp ∈ pairs, ∃ s cid, symbol_map tp = some s ∧ id_map s = some cid) :
    ∃ p : SubPayload,
      subscribe_channels symbol_map id_map pairs = [p] ∧
      p.op = "SUB" ∧ p.id = 1 ∧
      p.channel = pairs.flatMap (pair_channel_names symbol_map id_map) ∧
      p.channel.length = 2 * pairs.length := by
  refine ⟨{ op := "SUB",
            channel := pairs.flatMap (pair_channel_names symbol_map id_map),
            id := 1 }, ?_, rfl, rfl, rfl, ?_⟩
  · simp [subscribe_channels, build_channels_eq_flatMap symbol_map id_map pairs h]
  · clear hne
    induction pairs with
    | nil => rfl
    | cons tp rest ih =>
      have h2 := pair_channel_names_length symbol_map id_map tp
        (h tp (List.mem_cons_self tp rest))
      have ih' := ih (fun x hx => h x (List.mem_cons_of_mem _ hx))
      simp only [List.flatMap_cons, List.length_append, List.length_cons, ih', h2]
      ring

/-- Witness for `c2_subscribe_single_frame` on a concrete registry with one
instrument. -/
theorem c2_subscribe_single_frame_witness :
    ∃ p : SubPayload,
      subscribe_channels (fun tp => if tp = "BTC-USDT" then some "BTCUSDT" else none)
        (fun s => if s = "BTCUSDT" then some 28 else none) ["BTC-USDT"] = [p] ∧
      p.op = "SUB" ∧ p.id = 1 ∧
      p.channel = ["BTC-USDT"].flatMap
        (pair_channel_names (fun tp => if tp = "BTC-USDT" then some "BTCUSDT" else none)
          (fun s => if s = "BTCUSDT" then some 28 else none)) ∧
      p.channel.length = 2 * (["BTC-USDT"] : List String).length :=
  c2_subscribe_single_frame _ _ ["BTC-USDT"] (by decide)
    (fun tp htp => by
      have : tp = "BTC-USDT" := by simpa using htp
      exact ⟨"BTCUSDT", 28, by simp [this], by simp⟩)

/-- C4: a batch trade frame whose `data` array holds two entries enqueues
exactly two trade records in arrival order; each record maps `takerSide` to
the canonical buy/sell enumeration value, parses `volume` and `price` as
exact decimals, and is stamped with the entry's millisecond time divided by
1000. -/
theorem c4_batch_trade_two_records (resolve : String → Option String) (raw : Frame)
    (e1 e2 : TradeData) (queue : List TradeMessage)
    (tp1 tp2 : String) (v1 p1 v2 p2 : ℚ)
    (hdata : raw.data = some [e1, e2]) (hinc : raw.tradeId = none)
    (hs1 : resolve e1.symbol = some tp1) (hv1 : pyDecimal e1.volume = some v1)
    (hp1 : pyDecimal e1.price = some p1)
    (hs2 : resolve e2.symbol = some tp2) (hv2 : pyDecimal e2.volume = some v2)
    (hp2 : pyDecimal e2.price = some p2) :
    parse_trade_message resolve raw queue =
      (queue ++
        [{ content :=
            { trade_id := e1.tradeId
              trading_pair := tp1
              trade_type := if e1.takerSide = "BUY" then (TradeType.BUY.value : ℚ)
                            else (TradeType.SELL.value : ℚ)
              amount := v1
              price := p1 }
           timestamp := (e1.time : ℚ) / 1000 },
         { content :=
            { trade_id := e2.tradeId
              trading_pair := tp2
              trade_type := if e2.takerSide = "BUY" then (TradeType.BUY.value : ℚ)
                            else (TradeType.SELL.value : ℚ)
              amount := v2
              price := p2 }
           timestamp := (e2.time : ℚ) / 1000 }], true) := by
  simp [parse_trade_message, hdata, hinc, parse_trade_list, parse_message,
    hs1, hv1, hp1, hs2, hv2, hp2]

/-- Witness for `c4_batch_trade_two_records` on a concrete batch frame. -/
theorem c4_batch_trade_two_records_witness :
    parse_trade_message (fun s => if s = "BTCUSDT" then some "BTC-USDT" else none)
      { T := some "trade",
        data := some
          [{ tradeId := 1, symbol := "BTCUSDT", takerSide := "BUY",
             volume := "1.2", price := "45000", time := 1609459200000 },
           { tradeId := 2, symbol := "BTCUSDT", takerSide := "SELL",
             volume := "0.5", price := "45001", time := 1609459200500 }] } [] =
      ([{ content :=
            { trade_id := 1
              trading_pair := "BTC-USDT"
              trade_type := if ("BUY" : String) = "BUY" then (TradeType.BUY.value : ℚ)
                            else (TradeType.SELL.value : ℚ)
              amount := 6/5
              price := 45000 }
          timestamp := (1609459200000 : ℚ) / 1000 },
        { content :=
            { trade_id := 2
              trading_pair := "BTC-USDT"
              trade_type := if ("SELL" : String) = "BUY" then (TradeType.BUY.value : ℚ)
                            else (TradeType.SELL.value : ℚ)
              amount := 1/2
              price := 45001 }
          timestamp := (1609459200500 : ℚ) / 1000 }], true) := by
  have := c4_batch_trade_two_records
    (fun s => if s = "BTCUSDT" then some "BTC-USDT" else none)
    { T := some "trade",
      data := some
        [{ tradeId := 1, symbol := "BTCUSDT", takerSide := "BUY",
           volume := "1.2", price := "45000", time := 1609459200000 },
         { tradeId := 2, symbol := "BTCUSDT", takerSide := "SELL",
           volume := "0.5", price := "45001", time := 1609459200500 }] }
    { tradeId := 1, symbol := "BTCUSDT", takerSide := "BUY",
      volume := "1.2", price := "45000", time := 1609459200000 }
    { tradeId := 2, symbol := "BTCUSDT", takerSide := "SELL",
      volume := "0.5", price := "45001", time := 1609459200500 }
    [] "BTC-USDT" "BTC-USDT" (6/5) 45000 (1/2) 45001
    rfl rfl (by simp)
    (by simp [pyDecimal, parseUnsignedDecimal, decimalValue, digitsToNat, isDigitChar]; norm_num)
    (by simp [pyDecimal, parseUnsignedDecimal, decimalValue, digitsToNat, isDigitChar])
    (by simp)
    (by simp [pyDecimal, parseUnsignedDecimal, decimalValue, digitsToNat, isDigitChar]; norm_num)
    (by simp [pyDecimal, parseUnsignedDecimal, decimalValue, digitsToNat, isDigitChar])
  simpa using this

/-- C5: any frame carrying a top-level `tradeId` field (the incremental
trade payload, not inside the `data` array) is never classified as Unknown,
and — whenever it does not also carry the diff-type tag — is classified as
Trade, via the `tradeId` disjunct of the classification rule; the trade
normalizer then emits the frame's incremental payload as one additional
record after the records produced from the `data` array. -/
theorem c5_incremental_trade (resolve : String → Option String) (raw : Frame) (id : Nat)
    (entries : List TradeData) (queue q1 : List TradeMessage) (e0 : TradeData)
    (m0 : TradeMessage)
    (hid : raw.tradeId = some id)
    (hdata : raw.data = some entries)
    (hlist : parse_trade_list resolve entries queue = (q1, true))
    (he0 : raw.asTradeData = some e0)
    (hm0 : parse_message resolve e0 = some m0) :
    channel_originating_message raw ≠ "" ∧
    (raw.T ≠ some DIFF_EVENT_TYPE → channel_originating_message raw = TRADE_EVENT_TYPE) ∧
    parse_trade_message resolve raw queue = (q1 ++ [m0], true) := by
  have htrade : raw.T ≠ some DIFF_EVENT_TYPE →
      channel_originating_message raw = TRADE_EVENT_TYPE := by
    intro hnd
    simp [channel_originating_message, hnd, hid]
  refine ⟨?_, htrade, ?_⟩
  · by_cases hd : raw.T = some DIFF_EVENT_TYPE
    · rw [show channel_originating_message raw = DIFF_EVENT_TYPE by
        simp [channel_originating_message, hd]]
      decide
    · rw [htrade hd]
      decide
  · simp [parse_trade_message, hdata, hlist, hid, he0, hm0]

/-- Witness for `c5_incremental_trade` on a concrete incremental frame that
carries no `T` tag at all, so the classification rests on the `tradeId`
disjunct alone. -/
theorem c5_incremental_trade_witness :
    channel_originating_message
        { tradeId := some 99, data := some [],
          symbol := some "BTCUSDT", takerSide := some "SELL", volume := some "3",
          price := some "2.5", time := some 1700000000000 } ≠ "" ∧
    ((none : Option String) ≠ some DIFF_EVENT_TYPE →
      channel_originating_message
        { tradeId := some 99, data := some [],
          symbol := some "BTCUSDT", takerSide := some "SELL", volume := some "3",
          price := some "2.5", time := some 1700000000000 } = TRADE_EVENT_TYPE) ∧
    parse_trade_message (fun s => if s = "BTCUSDT" then some "BTC-USDT" else none)
        { tradeId := some 99, data := some [],
          symbol := some "BTCUSDT", takerSide := some "SELL", volume := some "3",
          price := some "2.5", time := some 1700000000000 } [] =
      ([] ++
        [{ content :=
            { trade_id := 99, trading_pair := "BTC-USDT",
              trade_type := (TradeType.SELL.value : ℚ), amount := 3, price := 5/2 }
           timestamp := (1700000000000 : ℚ) / 1000 }], true) :=
  c5_incremental_trade (fun s => if s = "BTCUSDT" then some "BTC-USDT" else none)
    { tradeId := some 99, data := some [],
      symbol := some "BTCUSDT", takerSide := some "SELL", volume := some "3",
      price := some "2.5", time := some 1700000000000 }
    99 [] [] []
    { tradeId := 99, symbol := "BTCUSDT", takerSide := "SELL",
      volume := "3", price := "2.5", time := 1700000000000 }
    { content :=
        { trade_id := 99, trading_pair := "BTC-USDT",
          trade_type := (TradeType.SELL.value : ℚ), amount := 3, price := 5/2 }
      timestamp := (1700000000000 : ℚ) / 1000 }
    rfl rfl rfl rfl
    (by simp [parse_message, pyDecimal, parseUnsignedDecimal, decimalValue, digitsToNat,
          isDigitChar, TradeType.value]
        norm_num)

/-- C7: for a diff frame carrying a venue symbol and `b`/`a` arrays, if the
symbol resolves the normalizer enqueues exactly one diff record whose bid
and ask levels equal the frame's arrays; if the symbol does not resolve,
nothing is enqueued and the queue is unchanged. -/
theorem c7_diff_resolution (resolve : String → Option String) (raw : Frame)
    (sym : String) (now : ℚ) (queue : List BookMessage)
    (bids asks : List (List ℚ))
    (hsym : raw.symbol = some sym) (hb : raw.b = some bids) (ha : raw.a = some asks) :
    (∀ tp, resolve sym = some tp →
      parse_order_book_diff_message resolve raw now queue =
        (queue ++
          [{ content :=
              { trading_pair := tp, update_id := now, bids := bids, asks := asks }
             timestamp := now }], true)) ∧
    (resolve sym = none →
      parse_order_book_diff_message resolve raw now queue = (queue, false)) := by
  constructor
  · intro tp htp
    simp [parse_order_book_diff_message, hsym, htp, hb, ha]
  · intro hnone
    simp [parse_order_book_diff_message, hsym, hnone]

/-- Witness for `c7_diff_resolution`: the same frame under a registry that
resolves it and under one that does not. -/
theorem c7_diff_resolution_witness :
    parse_order_book_diff_message (fun s => if s = "BTCUSDT" then some "BTC-USDT" else none)
        { T := some "depth", symbol := some "BTCUSDT",
          b := some [[45000, 1]], a := some [[45500, 1]] } 7 [] =
      ([] ++
        [{ content :=
            { trading_pair := "BTC-USDT", update_id := 7,
              bids := [[45000, 1]], asks := [[45500, 1]] }
           timestamp := 7 }], true) ∧
    parse_order_book_diff_message (fun _ => none)
        { T := some "depth", symbol := some "BTCUSDT",
          b := some [[45000, 1]], a := some [[45500, 1]] } 7 [] = ([], false) := by
  constructor
  · exact (c7_diff_resolution (fun s => if s = "BTCUSDT" then some "BTC-USDT" else none)
      { T := some "depth", symbol := some "BTCUSDT",
        b := some [[45000, 1]], a := some [[45500, 1]] }
      "BTCUSDT" 7 [] [[45000, 1]] [[45500, 1]] rfl rfl rfl).1 "BTC-USDT" (by simp)
  · exact (c7_diff_resolution (fun _ => none)
      { T := some "depth", symbol := some "BTCUSDT",
        b := some [[45000, 1]], a := some [[45500, 1]] }
      "BTCUSDT" 7 [] [[45000, 1]] [[45500, 1]] rfl rfl rfl).2 rfl

/-- Membership after a Python mapping assignment: every entry of
`pySetItem m k v` was already in `m` or has key `k`. -/
theorem mem_pySetItem {β : Type} (m : List (String × β)) (k : String) (v : β)
    (kv : String × β) (h : kv ∈ pySetItem m k v) : kv ∈ m ∨ kv.1 = k := by
  unfold pySetItem at h
  split at h
  · obtain ⟨x, hx, hxy⟩ := List.mem_map.mp h
    by_cases hk : x.1 = k
    · right
      rw [← hxy]
      simp [hk]
    · left
      rw [← hxy]
      simpa [hk] using hx
  · rcases List.mem_append.mp h with h' | h'
    · exact Or.inl h'
    · right
      simp only [List.mem_singleton] at h'
      rw [h']

/-- The fold of `install_symbol` preserves the USDT filter on both maps:
symbol-map entries all have keys ending in `"USDT"`, and id-map entries are
either preexisting or have keys ending in `"USDT"`. -/
theorem install_symbol_foldl_inv (orig : List (String × Nat)) (l : List SymbolData)
    (acc : List (String × String) × List (String × Nat))
    (h1 : ∀ kv ∈ acc.1, kv.1.endsWith "USDT" = true)
    (h2 : ∀ kv ∈ acc.2, kv ∈ orig ∨ kv.1.endsWith "USDT" = true) :
    (∀ kv ∈ (l.foldl install_symbol acc).1, kv.1.endsWith "USDT" = true) ∧
    (∀ kv ∈ (l.foldl install_symbol acc).2, kv ∈ orig ∨ kv.1.endsWith "USDT" = true) := by
  induction l generalizing acc with
  | nil => exact ⟨h1, h2⟩
  | cons d rest ih =>
    rw [List.foldl_cons]
    by_cases hd : d.symbol.endsWith "USDT" = true
    · have hstep : install_symbol acc d =
          (pySetItem acc.1 d.symbol
            (combine_to_hb_trading_pair (base_asset_of d.symbol) "USDT"),
           pySetItem acc.2 d.symbol d.id) := by
        simp [install_symbol, hd]
      rw [hstep]
      refine ih _ ?_ ?_
      · intro kv hkv
        rcases mem_pySetItem _ _ _ _ hkv with h' | h'
        · exact h1 kv h'
        · rw [h']; exact hd
      · intro kv hkv
        rcases mem_pySetItem _ _ _ _ hkv with h' | h'
        · exact h2 kv h'
        · right; rw [h']; exact hd
    · have : install_symbol acc d = acc := by
        simp [install_symbol, hd]
      rw [this]
      exact ih acc h1 h2

/-- C10: registry population filters silently by quote currency: on a
response with error code 0, every entry installed in the symbol-to-pair map
has a venue symbol ending in `"USDT"`, and every entry of the channel-id map
is either a preexisting entry or has a venue symbol ending in `"USDT"`; on a
response with a nonzero error code the registry state is unchanged. -/
theorem c10_registry_usdt_filter (info : ExchangeInfo) (st : RegistryState) :
    (∀ c : Int, info.code = some c → c ≠ 0 →
      initialize_trading_pair_symbols_from_exchange_info info st = st) ∧
    (info.code = some 0 →
      ∃ mapping idmap,
        initialize_trading_pair_symbols_from_exchange_info info st =
          { trading_pair_symbol_map := some mapping, symbol_to_id_map := idmap } ∧
        (∀ kv ∈ mapping, kv.1.endsWith "USDT" = true) ∧
        (∀ kv ∈ idmap, kv ∈ st.symbol_to_id_map ∨ kv.1.endsWith "USDT" = true)) := by
  constructor
  · intro c hc hcne
    have : info.code ≠ some 0 := by
      rw [hc]
      simp [hcne]
    simp [initialize_trading_pair_symbols_from_exchange_info, this]
  · intro hc
    have hinv := install_symbol_foldl_inv st.symbol_to_id_map info.data
      ([], st.symbol_to_id_map) (by simp) (fun kv hkv => Or.inl hkv)
    refine ⟨(info.data.foldl install_symbol ([], st.symbol_to_id_map)).1,
            (info.data.foldl install_symbol ([], st.symbol_to_id_map)).2,
            ?_, hinv.1, hinv.2⟩
    simp [initialize_trading_pair_symbols_from_exchange_info, hc]

/-- Witness for `c10_registry_usdt_filter` on a concrete exchange-info
response: an error response leaves the registry untouched; a success
response installs only the `USDT` symbol. -/
theorem c10_registry_usdt_filter_witness :
    initialize_trading_pair_symbols_from_exchange_info
        { code := some 1, message := some "err",
          data := [{ symbol := "BTCUSDT", id := 28 }] }
        { trading_pair_symbol_map := none, symbol_to_id_map := [("OLD", 9)] } =
      { trading_pair_symbol_map := none, symbol_to_id_map := [("OLD", 9)] } ∧
    (∃ mapping idmap,
      initialize_trading_pair_symbols_from_exchange_info
          { code := some 0,
            data := [{ symbol := "BTCUSDT", id := 28 }, { symbol := "ETHBTC", id := 13 }] }
          { trading_pair_symbol_map := none, symbol_to_id_map := [("OLD", 9)] } =
        { trading_pair_symbol_map := some mapping, symbol_to_id_map := idmap } ∧
      (∀ kv ∈ mapping, kv.1.endsWith "USDT" = true) ∧
      (∀ kv ∈ idmap, kv ∈ [("OLD", 9)] ∨ kv.1.endsWith "USDT" = true)) :=
  ⟨(c10_registry_usdt_filter
      { code := some 1, message := some "err",
        data := [{ symbol := "BTCUSDT", id := 28 }] }
      { trading_pair_symbol_map := none, symbol_to_id_map := [("OLD", 9)] }).1
      1 rfl (by decide),
   (c10_registry_usdt_filter
      { code := some 0,
        data := [{ symbol := "BTCUSDT", id := 28 }, { symbol := "ETHBTC", id := 13 }] }
      { trading_pair_symbol_map := none, symbol_to_id_map := [("OLD", 9)] }).2 rfl⟩

/-- The value of any finite decimal literal is an integer divided by a power
of ten. -/
theorem decimalValue_exact (ip fp : List Char) (e : ℤ) :
    ∃ n : ℤ, ∃ k : ℕ, decimalValue ip fp e = (n : ℚ) / 10 ^ k := by
  obtain ⟨m, rfl | rfl⟩ := Int.eq_nat_or_neg e
  · refine ⟨(digitsToNat ip * 10 ^ fp.length + digitsToNat fp : ℤ) * 10 ^ m, fp.length, ?_⟩
    unfold decimalValue
    rw [zpow_natCast]
    push_cast
    ring
  · refine ⟨(digitsToNat ip * 10 ^ fp.length + digitsToNat fp : ℤ), fp.length + m, ?_⟩
    unfold decimalValue
    rw [zpow_neg, zpow_natCast]
    push_cast
    rw [pow_add]
    ring

/-- Any rational produced by the unsigned decimal parser is an integer
divided by a power of ten. -/
theorem parseUnsignedDecimal_exact (cs : List Char) (q : ℚ)
    (h : parseUnsignedDecimal cs = some q) :
    ∃ n : ℤ, ∃ k : ℕ, q = (n : ℚ) / 10 ^ k := by
  simp only [parseUnsignedDecimal] at h
  split at h
  · simp at h
  · split at h
    · obtain ⟨n, k, hq⟩ := decimalValue_exact (cs.takeWhile isDigitChar)
        (match cs.dropWhile isDigitChar with
          | '.' :: r => (r.takeWhile isDigitChar, r.dropWhile isDigitChar)
          | x => ([], cs.dropWhile isDigitChar)).1 0
      exact ⟨n, k, by rw [← Option.some_inj.mp h, hq]⟩
    · split at h
      · obtain ⟨e, _, hq⟩ := Option.map_eq_some'.mp h
        obtain ⟨n, k, hq'⟩ := decimalValue_exact (cs.takeWhile isDigitChar)
          (match cs.dropWhile isDigitChar with
            | '.' :: r => (r.takeWhile isDigitChar, r.dropWhile isDigitChar)
            | x => ([], cs.dropWhile isDigitChar)).1 e
        exact ⟨n, k, by rw [← hq, hq']⟩
      · simp at h

/-- Any rational produced by `pyDecimal` is an integer divided by a power of
ten: the parse is exact decimal arithmetic, with no binary floating point. -/
theorem pyDecimal_exact (s : String) (q : ℚ) (h : pyDecimal s = some q) :
    ∃ n : ℤ, ∃ k : ℕ, q = (n : ℚ) / 10 ^ k := by
  unfold pyDecimal at h
  split at h
  · obtain ⟨q', hq', rfl⟩ := Option.map_eq_some'.mp h
    obtain ⟨n, k, rfl⟩ := parseUnsignedDecimal_exact _ _ hq'
    exact ⟨-n, k, by push_cast; ring⟩
  · exact parseUnsignedDecimal_exact _ _ h
  · exact parseUnsignedDecimal_exact _ _ h

/-- C9: every trade record produced by the trade normalizer carries as
`amount` and `price` exactly the `Decimal` parse of the frame's `volume` and
`price` strings, and each value is an exact decimal (an integer over a power
of ten), never a binary floating-point approximation. -/
theorem c9_trade_exact_decimals (resolve : String → Option String) (e : TradeData)
    (m : TradeMessage) (h : parse_message resolve e = some m) :
    pyDecimal e.volume = some m.content.amount ∧
    pyDecimal e.price = some m.content.price ∧
    (∃ n : ℤ, ∃ k : ℕ, m.content.amount = (n : ℚ) / 10 ^ k) ∧
    (∃ n : ℤ, ∃ k : ℕ, m.content.price = (n : ℚ) / 10 ^ k) := by
  rcases hs : resolve e.symbol with _ | tp
  · rw [parse_message, hs] at h
    simp at h
  · rcases hv : pyDecimal e.volume with _ | v
    · rw [parse_message, hs, hv] at h
      simp at h
    · rcases hp : pyDecimal e.price with _ | p
      · rw [parse_message, hs, hv, hp] at h
        simp at h
      · rw [parse_message, hs, hv, hp] at h
        have hm := Option.some_inj.mp h
        refine ⟨?_, ?_, ?_, ?_⟩
        · rw [← hm]
        · rw [← hm]
        · rw [← hm]
          exact pyDecimal_exact e.volume v hv
        · rw [← hm]
          exact pyDecimal_exact e.price p hp

/-- Witness for `c9_trade_exact_decimals` on a concrete trade entry. -/
theorem c9_trade_exact_decimals_witness :
    pyDecimal "1.2" = some ((6 : ℚ)/5) ∧
    pyDecimal "45000.25" = some ((180001 : ℚ)/4) ∧
    (∃ n : ℤ, ∃ k : ℕ, ((6 : ℚ)/5) = (n : ℚ) / 10 ^ k) ∧
    (∃ n : ℤ, ∃ k : ℕ, ((180001 : ℚ)/4) = (n : ℚ) / 10 ^ k) :=
  c9_trade_exact_decimals (fun s => if s = "BTCUSDT" then some "BTC-USDT" else none)
    { tradeId := 1, symbol := "BTCUSDT", takerSide := "BUY",
      volume := "1.2", price := "45000.25", time := 1609459200000 }
    { content :=
        { trade_id := 1, trading_pair := "BTC-USDT",
          trade_type := (TradeType.BUY.value : ℚ), amount := 6/5, price := 180001/4 }
      timestamp := (1609459200000 : ℚ) / 1000 }
    (by simp [parse_message, pyDecimal, parseUnsignedDecimal, decimalValue, digitsToNat,
          isDigitChar, TradeType.value]
        norm_num)

/-- Assigning a key absent from an ordered mapping appends it at the end. -/
theorem pySetItem_append {β : Type} (m : List (String × β)) (k : String) (v : β)
    (h : ∀ kv ∈ m, kv.1 ≠ k) : pySetItem m k v = m ++ [(k, v)] := by
  have : m.any (fun kv => kv.1 = k) = false := by
    rw [List.any_eq_false]
    intro kv hkv
    simpa using h kv hkv
  simp [pySetItem, this]

/-- Splitting words into bytes only produces values below 256. -/
theorem wordsToBytes_lt (ws : List Nat) : ∀ b ∈ wordsToBytes ws, b < 256 := by
  induction ws with
  | nil => intro b hb; simp [wordsToBytes] at hb
  | cons w rest ih =>
    intro b hb
    rw [wordsToBytes] at hb
    simp only [List.mem_cons] at hb
    rcases hb with h | h | h | h | h
    all_goals first
      | (rw [h]; exact Nat.mod_lt _ (by norm_num))
      | exact ih b h

/-- Every byte of a SHA-256 digest is below 256. -/
theorem sha256_bytes_lt (msg : List Nat) : ∀ b ∈ sha256 msg, b < 256 := by
  intro b hb
  exact wordsToBytes_lt _ b hb

/-- Every byte of an HMAC-SHA256 digest is below 256. -/
theorem hmacSha256_bytes_lt (key msg : List Nat) : ∀ b ∈ hmacSha256 key msg, b < 256 := by
  intro b hb
  exact wordsToBytes_lt _ b hb

/-- Hex digits of values below 16 are lowercase hexadecimal characters. -/
theorem hexDigitChar_mem (n : Nat) (h : n < 16) :
    hexDigitChar n ∈ "0123456789abcdef".toList := by
  interval_cases n <;> decide

/-- The hex rendering of a byte list only uses lowercase hexadecimal
characters. -/
theorem bytesToHex_chars (bs : List Nat) (h : ∀ b ∈ bs, b < 256) :
    ∀ c ∈ (bytesToHex bs).toList, c ∈ "0123456789abcdef".toList := by
  intro c hc
  have hc' : c ∈ bs.flatMap (fun b => [hexDigitChar (b / 16), hexDigitChar (b % 16)]) := hc
  obtain ⟨b, hb, hcb⟩ := List.mem_flatMap.mp hc'
  have hblt := h b hb
  simp only [List.mem_cons, List.not_mem_nil, or_false] at hcb
  rcases hcb with h' | h'
  · rw [h']
    exact hexDigitChar_mem _ (by omega)
  · rw [h']
    exact hexDigitChar_mem _ (Nat.mod_lt _ (by norm_num))

/-- C8: the request signature is deterministic — identical parameter lists,
timestamp and secret produce the identical digest — and is computed as
HMAC-SHA256 over the URL-encoded parameters with the timestamp appended as
the last parameter before signing, rendered as a lowercase hex digest. -/
theorem c8_signature_deterministic (secret_key : String) (timestamp_ms : Nat)
    (params1 params2 : List (String × String))
    (heq : params1 = params2)
    (hfresh : ∀ kv ∈ params1, kv.1 ≠ "timestamp" ∧ kv.1 ≠ "signature") :
    add_auth_to_params secret_key timestamp_ms params1 =
      add_auth_to_params secret_key timestamp_ms params2 ∧
    ∃ sig,
      add_auth_to_params secret_key timestamp_ms params1 =
        (params1 ++ [("timestamp", toString timestamp_ms)]) ++ [("signature", sig)] ∧
      sig = generate_signature secret_key (params1 ++ [("timestamp", toString timestamp_ms)]) ∧
      sig = bytesToHex (hmacSha256 (utf8Bytes secret_key)
              (utf8Bytes (urlencode (params1 ++ [("timestamp", toString timestamp_ms)])))) ∧
      ∀ c ∈ sig.toList, c ∈ "0123456789abcdef".toList := by
  subst heq
  have hts : pySetItem params1 "timestamp" (toString timestamp_ms) =
      params1 ++ [("timestamp", toString timestamp_ms)] :=
    pySetItem_append _ _ _ (fun kv hkv => (hfresh kv hkv).1)
  refine ⟨rfl,
    generate_signature secret_key (params1 ++ [("timestamp", toString timestamp_ms)]),
    ?_, rfl, rfl, ?_⟩
  · unfold add_auth_to_params
    rw [hts]
    apply pySetItem_append
    intro kv hkv
    rcases List.mem_append.mp hkv with h' | h'
    · exact (hfresh kv h').2
    · simp only [List.mem_singleton] at h'
      rw [h']
      exact (by decide : ("timestamp" : String) ≠ "signature")
  · exact bytesToHex_chars _ (hmacSha256_bytes_lt _ _)

/-- Witness for `c8_signature_deterministic` on a concrete request. -/
theorem c8_signature_deterministic_witness :
    add_auth_to_params "secret" 1700000000000 [("symbol", "BTCUSDT")] =
      add_auth_to_params "secret" 1700000000000 [("symbol", "BTCUSDT")] ∧
    ∃ sig,
      add_auth_to_params "secret" 1700000000000 [("symbol", "BTCUSDT")] =
        ([("symbol", "BTCUSDT")] ++ [("timestamp", toString (1700000000000 : Nat))]) ++
          [("signature", sig)] ∧
      sig = generate_signature "secret"
        ([("symbol", "BTCUSDT")] ++ [("timestamp", toString (1700000000000 : Nat))]) ∧
      sig = bytesToHex (hmacSha256 (utf8Bytes "secret")
              (utf8Bytes (urlencode
                ([("symbol", "BTCUSDT")] ++ [("timestamp", toString (1700000000000 : Nat))])))) ∧
      ∀ c ∈ sig.toList, c ∈ "0123456789abcdef".toList :=
  c8_signature_deterministic "secret" 1700000000000
    [("symbol", "BTCUSDT")] [("symbol", "BTCUSDT")] rfl (by decide)

end Coinstore
